import Mathlib

/-!
Verification development for the runar action macro
(implementation-notes/archive/original-code/action_macro_original.rs).

The file embeds the syntax-tree data the macro inspects (a minimal view of
the syn crate types), translates the macro pipeline itself
(attribute handling, signature validation, return-type classification and
code synthesis) into executable Lean definitions, and proves properties of
that pipeline: name resolution, validation failures, classification, and
the runtime meaning of the two emitted handler-body templates.
-/

set_option linter.unusedVariables false

/-! ## Syntax-tree data model (view of the syn types the macro reads) -/

mutual

/-- A type expression, at the granularity the macro inspects it:
a path type, a reference type, or anything else. -/
inductive Ty where
  | path (p : SynPath)
  | reference (inner : Ty)
  | other

/-- A path: a sequence of segments, as in syn::Path. -/
inductive SynPath where
  | mk (segments : List SynPathSegment)

/-- One path segment: identifier text plus its generic arguments. -/
inductive SynPathSegment where
  | mk (ident : String) (arguments : PathArguments)

/-- The arguments attached to a path segment. The first constructor is
the syn PathArguments::None case, renamed to avoid clashing with Option. -/
inductive PathArguments where
  | noArgs
  | angleBracketed (args : List GenericArgument)
  | parenthesized

/-- One generic argument: a type argument or anything else
(lifetime, const, binding). -/
inductive GenericArgument where
  | typeArg (t : Ty)
  | otherArg

end

def SynPath.segments : SynPath → List SynPathSegment
  | SynPath.mk segs => segs

def SynPathSegment.ident : SynPathSegment → String
  | SynPathSegment.mk i _ => i

def SynPathSegment.arguments : SynPathSegment → PathArguments
  | SynPathSegment.mk _ a => a

/-- A declared return type: absent, or a type expression. -/
inductive ReturnType where
  | default
  | type (ty : Ty)

/-- Receiver kinds of a method, per the data model of the spec (section 3):
by-reference or by-mutable-reference. -/
inductive Receiver where
  | byRef
  | byMutRef
deriving DecidableEq

/-- One input of a function signature: a receiver or a typed parameter. -/
inductive FnArg where
  | receiver (r : Receiver)
  | typed (name : String) (ty : Ty)

/-- The signature of the annotated function: identifier, whether it is
declared async (the source tests asyncness.is_none), inputs in order,
and the declared return type. -/
structure Signature where
  ident : String
  asyncness : Bool
  inputs : List FnArg
  output : ReturnType

/-- The parsed annotated function item. -/
structure ItemFn where
  sig : Signature

/-! ## Attribute tokens and meta items -/

/-- A literal value in a meta item. -/
inductive Lit where
  | str (s : String)
  | otherLit
deriving DecidableEq

/-- A meta item of the attribute list: a name-value pair with a key and a
literal, a bare path, or a nested list. -/
inductive Meta where
  | nameValue (key : String) (value : Lit)
  | pathMeta (key : String)
  | listMeta (key : String)
deriving DecidableEq

/-- The raw attribute token stream, modelled at the exact granularity the
source observes it: the attr.is_empty() test, and the outcome of the external
syn parse_terminated run over the tokens, which either yields the
comma-separated meta items or fails (parseResult = none). -/
structure AttrTokens where
  is_empty : Bool
  parseResult : Option (List Meta)

/-- Modelled from the spec: crate::utils::extract_name_value_pairs is not
under the archived sources (only its call site is). Per section 4.1 the
attribute parser turns the meta items into a mapping from option name to
string value; entries that are not name/value pairs with string literal
values contribute nothing. -/
def extract_name_value_pairs (metas : List Meta) : List (String × String) :=
  metas.foldr
    (fun m acc =>
      match m with
      | Meta.nameValue key (Lit.str v) => (key, v) :: acc
      | _ => acc)
    []

/-! ## Return-type classification (source lines 221 to 267) -/

/-- Check if a type is named a certain way (source lines 264 to 267):
true when ANY segment of the path has the given identifier text. -/
def is_type_named (path : SynPath) (name : String) : Bool :=
  path.segments.any (fun segment => segment.ident == name)

/-- Check if the return type is Result of ServiceResponse
(source lines 221 to 246): the path is named Result, and the first
angle-bracketed generic argument of the LAST segment is a path type
named ServiceResponse. -/
def is_service_response_return (output : ReturnType) : Bool :=
  match output with
  | ReturnType.default => false
  | ReturnType.type ty =>
    match ty with
    | Ty.path path =>
      if is_type_named path "Result" then
        match path.segments.getLast? with
        | some seg =>
          match seg.arguments with
          | PathArguments.angleBracketed args =>
            match args.head? with
            | some (GenericArgument.typeArg (Ty.path path2)) =>
                is_type_named path2 "ServiceResponse"
            | _ => false
          | _ => false
        | none => false
      else false
    | _ => false

/-- Check if the return type is a Result, any Result of T
(source lines 249 to 261). -/
def is_result_return (output : ReturnType) : Bool :=
  match output with
  | ReturnType.default => false
  | ReturnType.type ty =>
    match ty with
    | Ty.path path => is_type_named path "Result"
    | _ => false

/-- The closed set of return shapes of the spec (section 3). -/
inductive ReturnShape where
  | WrappedResponse
  | RawResult
  | Raw
deriving DecidableEq

/-- Spec view (section 4.3): the shape of a declared return type, derived
from the two source predicates. -/
def classify (output : ReturnType) : ReturnShape :=
  if is_service_response_return output then ReturnShape.WrappedResponse
  else if is_result_return output then ReturnShape.RawResult
  else ReturnShape.Raw

/-! ## Emitted artifacts -/

/-- Where a compile-time diagnostic is anchored: the fn keyword of the
signature (new_spanned on sig.fn_token) or the whole signature
(new_spanned on the sig itself). -/
inductive Anchor where
  | fnToken
  | wholeSig
deriving DecidableEq

/-- A syn::Error turned into a compile_error output: an anchor and the
diagnostic message. -/
inductive SynError where
  | new_spanned (anchor : Anchor) (msg : String)
deriving DecidableEq

/-- The emitted call of the original method inside the handler body:
method identifier and the argument identifiers passed to it. -/
structure MethodCall where
  method : String
  args : List String
deriving DecidableEq

/-- The two handler-body templates the macro can emit (source lines
98 to 118). passThrough is the direct pass-through template for
ServiceResponse returns: call, await, then .context with the given
message. wrapSuccess is the wrapping template: call, await, .context,
question-mark, then Ok of ServiceResponse::success of the success
message and the converted result. The context messages are stored
already formatted with the operation name. -/
inductive HandlerCode where
  | passThrough (call : MethodCall) (contextMsg : String)
  | wrapSuccess (call : MethodCall) (contextMsg : String) (successMsg : String)
deriving DecidableEq

/-- The emitted expression for the TypeId of the owning service type:
always TypeId::of of Self in the source. -/
inductive TypeIdExpr where
  | ofSelf
deriving DecidableEq

/-- The emitted registration record (the ActionItem submitted to the
registry, source lines 126 to 144). -/
structure Registration where
  name : String
  service_type_id : TypeIdExpr
  handlerBody : HandlerCode
deriving DecidableEq

/-- The full successful output of the macro: the original function kept
intact plus the registration record. -/
structure ActionOutput where
  originalFn : ItemFn
  registration : Registration

/-! ## The action macro pipeline (source lines 39 to 148) -/

/-- The action macro itself, translated from the source. The operation
name is resolved first (method name, or the name entry of the extracted
name-value pairs, with unwrap_or_default on the external parse); then the
async check, then the receiver check, then return-type classification
selects the handler template and the output is assembled. Failure emits a
compile error and nothing else. -/
def action (attr : AttrTokens) (input_fn : ItemFn) : Except SynError ActionOutput :=
  let method_name_str := input_fn.sig.ident
  let operation_name :=
    if attr.is_empty then method_name_str
    else
      let meta_vec := attr.parseResult.getD []
      let name_value_pairs := extract_name_value_pairs meta_vec
      ((name_value_pairs.lookup "name").getD method_name_str)
  if input_fn.sig.asyncness = false then
    Except.error (SynError.new_spanned Anchor.fnToken "action methods must be async")
  else
    match input_fn.sig.inputs.head? with
    | some (FnArg.receiver _) =>
      let returns_service_response := is_service_response_return input_fn.sig.output
      let returns_result := is_result_return input_fn.sig.output
      let handler_code :=
        if returns_service_response then
          HandlerCode.passThrough
            { method := method_name_str, args := ["context", "params"] }
            ("Error executing " ++ operation_name)
        else
          HandlerCode.wrapSuccess
            { method := method_name_str, args := ["context", "params"] }
            ("Error executing " ++ operation_name)
            "Operation succeeded"
      Except.ok
        { originalFn := input_fn
          registration :=
            { name := operation_name
              service_type_id := TypeIdExpr.ofSelf
              handlerBody := handler_code } }
    | _ =>
      Except.error (SynError.new_spanned Anchor.wholeSig
        "Action handlers must be methods with &self or &mut self parameter")

/-! ## Runtime meaning of the emitted handler code -/

/-- A runtime error value in the anyhow style: a base message plus the
chain of context messages attached to it, most recent first. -/
structure AnyhowError where
  message : String
  contextChain : List String
deriving DecidableEq

/-- Attaching a context message to an error, as anyhow .context does on
the failure branch. -/
def AnyhowError.context (e : AnyhowError) (msg : String) : AnyhowError :=
  { message := e.message, contextChain := msg :: e.contextChain }

/-- A wire payload value (external ValueType of the runtime, modelled
minimally). -/
inductive ValueType where
  | intV (n : Int)
  | strV (s : String)
  | nullV
deriving DecidableEq

/-- The external ServiceResponse type, modelled by the two fields the
generated code constructs: a message and an optional payload. -/
structure ServiceResponse where
  respMessage : String
  payload : Option ValueType
deriving DecidableEq

/-- The ServiceResponse::success constructor the generated code calls. -/
def ServiceResponse.success (msg : String) (payload : Option ValueType) : ServiceResponse :=
  { respMessage := msg, payload := payload }

/-- Runtime meaning of the pass-through template (source lines 100 to 104):
apply .context with the given message to the awaited method result. An Ok
response passes through untouched; an Err gains the context message. -/
def runPassThrough (ctxMsg : String)
    (methodResult : Except AnyhowError ServiceResponse) :
    Except AnyhowError ServiceResponse :=
  match methodResult with
  | Except.ok v => Except.ok v
  | Except.error e => Except.error (e.context ctxMsg)

/-- Runtime meaning of the wrapping template (source lines 107 to 117)
when the method returns a Result of a raw value: .context then the
question-mark operator on the failure branch, and on success a fresh
ServiceResponse::success of the fixed message and the value converted by
the external Into implementation. -/
def runWrapSuccess {α : Type} (ctxMsg successMsg : String)
    (intoValue : α → ValueType) (methodResult : Except AnyhowError α) :
    Except AnyhowError ServiceResponse :=
  match methodResult with
  | Except.error e => Except.error (e.context ctxMsg)
  | Except.ok result =>
      Except.ok (ServiceResponse.success successMsg (some (intoValue result)))

/-- A type-erased service reference: a runtime type tag plus the
underlying concrete value. -/
structure ServiceRef (σ : Type) where
  typeId : Nat
  value : σ

/-- The runtime downcast of the generated closure: succeeds exactly when
the runtime type tag equals the expected TypeId. -/
def downcast_ref {σ : Type} (service_ref : ServiceRef σ) (expected : Nat) : Option σ :=
  if service_ref.typeId = expected then some service_ref.value else none

/-- Runtime behavior of the generated registration closure (source lines
130 to 141): downcast the service reference; a failed downcast returns the
anyhow type-mismatch error through ok_or_else and the question-mark
operator; a successful downcast runs the selected handler body on the
recovered service. The operation argument is ignored, as in the source
closure whose binder is _operation. -/
def handlerClosure {σ γ π : Type} (expectedTypeId : Nat)
    (body : σ → γ → π → Except AnyhowError ServiceResponse)
    (service_ref : ServiceRef σ) (context : γ) (_operation : String) (params : π) :
    Except AnyhowError ServiceResponse :=
  match downcast_ref service_ref expectedTypeId with
  | none =>
      Except.error { message := "Service type mismatch in action handler", contextChain := [] }
  | some service => body service context params

/-! ## Spec-side definitions used to state the claims -/

/-- Matching that compares ONLY the identifier text of the last path
segment, as the spec (section 4.3) describes the classifier. -/
def lastSegmentNamed (path : SynPath) (name : String) : Bool :=
  match path.segments.getLast? with
  | some seg => seg.ident == name
  | none => false

/-- The classification rule exactly as the spec words it: the outer named
type, matched by the text of the LAST path segment only, is Result, and
its generic argument, matched the same way, is named ServiceResponse. -/
def is_service_response_return_specRule (output : ReturnType) : Bool :=
  match output with
  | ReturnType.default => false
  | ReturnType.type ty =>
    match ty with
    | Ty.path path =>
      if lastSegmentNamed path "Result" then
        match path.segments.getLast? with
        | some seg =>
          match seg.arguments with
          | PathArguments.angleBracketed args =>
            match args.head? with
            | some (GenericArgument.typeArg (Ty.path path2)) =>
                lastSegmentNamed path2 "ServiceResponse"
            | _ => false
          | _ => false
        | none => false
      else false
    | _ => false

/-- The amended classification rule: the return type is a path type SOME
segment of which is named Result, and the first angle-bracketed generic
argument of the LAST segment is a path type SOME segment of which is
named ServiceResponse. -/
def is_service_response_return_amendedRule (output : ReturnType) : Bool :=
  match output with
  | ReturnType.type (Ty.path path) =>
    (path.segments.any (fun s => s.ident == "Result")) &&
    (match path.segments.getLast? with
     | some seg =>
       match seg.arguments with
       | PathArguments.angleBracketed args =>
         match args.head? with
         | some (GenericArgument.typeArg (Ty.path path2)) =>
             path2.segments.any (fun s => s.ident == "ServiceResponse")
         | _ => false
       | _ => false
     | none => false)
  | _ => false

/-- The explicit name option carried by an attribute, as the source
resolves it: none when the attribute is empty, otherwise the first name
entry of the extracted name-value pairs. -/
def explicitNameOption (attr : AttrTokens) : Option String :=
  if attr.is_empty then none
  else (extract_name_value_pairs (attr.parseResult.getD [])).lookup "name"

/-- Whether the first input of the signature is a receiver: the pattern
the source matches at lines 77 to 78. -/
def firstArgIsReceiver (fn : ItemFn) : Bool :=
  match fn.sig.inputs.head? with
  | some (FnArg.receiver _) => true
  | _ => false

/-- Replace the declared return type of a function, leaving the rest of
the signature unchanged. -/
def setOutput (fn : ItemFn) (output : ReturnType) : ItemFn :=
  { sig := { fn.sig with output := output } }

/-- The empty attribute token stream. -/
def emptyAttr : AttrTokens :=
  { is_empty := true, parseResult := some [] }

/-! ## Concrete fixtures used by counterexamples and witnesses -/

/-- The single-segment path ServiceResponse. -/
def srPath : SynPath :=
  SynPath.mk [SynPathSegment.mk "ServiceResponse" PathArguments.noArgs]

/-- The declared return type Result of ServiceResponse. -/
def resultOfSRReturn : ReturnType :=
  ReturnType.type (Ty.path (SynPath.mk
    [SynPathSegment.mk "Result"
      (PathArguments.angleBracketed [GenericArgument.typeArg (Ty.path srPath)])]))

/-- The single-segment path PostsData. -/
def postsPath : SynPath :=
  SynPath.mk [SynPathSegment.mk "PostsData" PathArguments.noArgs]

/-- The declared return type Result of PostsData. -/
def resultOfPostsReturn : ReturnType :=
  ReturnType.type (Ty.path (SynPath.mk
    [SynPathSegment.mk "Result"
      (PathArguments.angleBracketed [GenericArgument.typeArg (Ty.path postsPath)])]))

/-- The declared return type PostsData, not a Result at all. -/
def plainPostsReturn : ReturnType :=
  ReturnType.type (Ty.path postsPath)

/-- Return type whose path is Result::Wrapper with the ServiceResponse
argument on the LAST segment: the Result identifier sits on a non-last
segment, so last-segment-only matching and any-segment matching differ. -/
def c1CexReturn : ReturnType :=
  ReturnType.type (Ty.path (SynPath.mk
    [SynPathSegment.mk "Result" PathArguments.noArgs,
     SynPathSegment.mk "Wrapper"
       (PathArguments.angleBracketed [GenericArgument.typeArg (Ty.path srPath)])]))

/-- A valid annotated method returning Result of ServiceResponse. -/
def fnW2 : ItemFn :=
  { sig :=
    { ident := "get_user_by_id"
      asyncness := true
      inputs := [FnArg.receiver Receiver.byRef]
      output := resultOfSRReturn } }

/-- The output the macro synthesizes for fnW2 under the empty attribute. -/
def outW2 : ActionOutput :=
  { originalFn := fnW2
    registration :=
      { name := "get_user_by_id"
        service_type_id := TypeIdExpr.ofSelf
        handlerBody :=
          HandlerCode.passThrough
            { method := "get_user_by_id", args := ["context", "params"] }
            "Error executing get_user_by_id" } }

/-- A valid annotated method returning Result of PostsData. -/
def fnW3 : ItemFn :=
  { sig :=
    { ident := "get_posts"
      asyncness := true
      inputs := [FnArg.receiver Receiver.byRef]
      output := resultOfPostsReturn } }

/-- The output the macro synthesizes for fnW3 under the empty attribute. -/
def outW3 : ActionOutput :=
  { originalFn := fnW3
    registration :=
      { name := "get_posts"
        service_type_id := TypeIdExpr.ofSelf
        handlerBody :=
          HandlerCode.wrapSuccess
            { method := "get_posts", args := ["context", "params"] }
            "Error executing get_posts"
            "Operation succeeded" } }

/-- An annotated async free function: its first input is a typed
parameter, not a receiver. -/
def fnC4 : ItemFn :=
  { sig :=
    { ident := "do_stuff"
      asyncness := true
      inputs := [FnArg.typed "x" Ty.other]
      output := ReturnType.default } }

/-- An annotated method that is not declared async. -/
def fnC5 : ItemFn :=
  { sig :=
    { ident := "sync_fn"
      asyncness := false
      inputs := [FnArg.receiver Receiver.byRef]
      output := ReturnType.default } }

/-- An attribute carrying the explicit option name = get_user. -/
def attrW6 : AttrTokens :=
  { is_empty := false, parseResult := some [Meta.nameValue "name" (Lit.str "get_user")] }

/-- A valid annotated method named get_user_by_id with no declared
return type. -/
def fnW6 : ItemFn :=
  { sig :=
    { ident := "get_user_by_id"
      asyncness := true
      inputs := [FnArg.receiver Receiver.byRef]
      output := ReturnType.default } }

/-- The output the macro synthesizes for fnW6 under attrW6. -/
def outW6 : ActionOutput :=
  { originalFn := fnW6
    registration :=
      { name := "get_user"
        service_type_id := TypeIdExpr.ofSelf
        handlerBody :=
          HandlerCode.wrapSuccess
            { method := "get_user_by_id", args := ["context", "params"] }
            "Error executing get_user"
            "Operation succeeded" } }

/-- A non-empty attribute whose tokens fail the external meta parse. -/
def attrW7 : AttrTokens :=
  { is_empty := false, parseResult := none }

/-- A valid annotated method used to exercise the malformed-attribute
path. -/
def fnW7 : ItemFn :=
  { sig :=
    { ident := "list_items"
      asyncness := true
      inputs := [FnArg.receiver Receiver.byRef]
      output := ReturnType.default } }

/-- An attribute carrying the explicit option name with the empty string
as its value. -/
def attrC9 : AttrTokens :=
  { is_empty := false, parseResult := some [Meta.nameValue "name" (Lit.str "")] }

/-- A valid annotated method used with attrC9. -/
def fnC9 : ItemFn :=
  { sig :=
    { ident := "get_posts"
      asyncness := true
      inputs := [FnArg.receiver Receiver.byRef]
      output := ReturnType.default } }

/-- An attribute carrying the explicit non-empty option name = post_list. -/
def attrW9 : AttrTokens :=
  { is_empty := false, parseResult := some [Meta.nameValue "name" (Lit.str "post_list")] }

/-- A valid annotated method used with attrW9. -/
def fnW9 : ItemFn :=
  { sig :=
    { ident := "get_posts_w9"
      asyncness := true
      inputs := [FnArg.receiver Receiver.byRef]
      output := ReturnType.default } }

/-- The output the macro synthesizes for fnW9 under attrW9. -/
def outW9 : ActionOutput :=
  { originalFn := fnW9
    registration :=
      { name := "post_list"
        service_type_id := TypeIdExpr.ofSelf
        handlerBody :=
          HandlerCode.wrapSuccess
            { method := "get_posts_w9", args := ["context", "params"] }
            "Error executing post_list"
            "Operation succeeded" } }

/-- A valid annotated method whose return type is swapped by setOutput in
the C10 witness. -/
def fnW10 : ItemFn :=
  { sig :=
    { ident := "get_posts10"
      asyncness := true
      inputs := [FnArg.receiver Receiver.byRef]
      output := ReturnType.default } }

/-- A handler body used as the wrapped original method in the C8 witness:
always succeeds. -/
def bodyA : Nat → Unit → Unit → Except AnyhowError ServiceResponse :=
  fun _ _ _ => Except.ok (ServiceResponse.success "a" none)

/-- A second handler body for the C8 witness: always fails. -/
def bodyB : Nat → Unit → Unit → Except AnyhowError ServiceResponse :=
  fun _ _ _ => Except.error { message := "b", contextChain := [] }

/-- A type-erased service reference whose tag 2 does not match the
expected TypeId 1. -/
def wrongRef : ServiceRef Nat :=
  { typeId := 2, value := 0 }

/-! ## Helper lemmas shared by the claim theorems -/

lemma operationName_eq (attr : AttrTokens) (s : String) :
    (if attr.is_empty then s
     else ((extract_name_value_pairs (attr.parseResult.getD [])).lookup "name").getD s)
      = (explicitNameOption attr).getD s := by
  unfold explicitNameOption
  by_cases h : attr.is_empty
  · simp [h]
  · simp [h]

lemma classify_eq_wrapped_iff (rt : ReturnType) :
    classify rt = ReturnShape.WrappedResponse ↔ is_service_response_return rt = true := by
  unfold classify
  cases h : is_service_response_return rt
  · cases h2 : is_result_return rt <;> simp [h, h2]
  · simp [h]

lemma classify_ne_wrapped_iff (rt : ReturnType) :
    classify rt ≠ ReturnShape.WrappedResponse ↔ is_service_response_return rt = false := by
  rw [Ne, classify_eq_wrapped_iff]
  simp

lemma action_ok_cases (attr : AttrTokens) (fn : ItemFn) (out : ActionOutput)
    (hok : action attr fn = Except.ok out) :
    fn.sig.asyncness = true ∧ firstArgIsReceiver fn = true ∧
    out.registration.name = (explicitNameOption attr).getD fn.sig.ident ∧
    out.registration.handlerBody =
      (if is_service_response_return fn.sig.output then
        HandlerCode.passThrough
          { method := fn.sig.ident, args := ["context", "params"] }
          ("Error executing " ++ (explicitNameOption attr).getD fn.sig.ident)
      else
        HandlerCode.wrapSuccess
          { method := fn.sig.ident, args := ["context", "params"] }
          ("Error executing " ++ (explicitNameOption attr).getD fn.sig.ident)
          "Operation succeeded") := by
  unfold action at hok
  cases ha : fn.sig.asyncness with
  | false => rw [ha] at hok; simp at hok
  | true =>
    rw [ha] at hok
    simp only [Bool.true_eq_false, if_false] at hok
    unfold firstArgIsReceiver
    cases hh : fn.sig.inputs.head? with
    | none => rw [hh] at hok; simp at hok
    | some arg =>
      rw [hh] at hok
      cases arg with
      | typed n t => simp at hok
      | receiver r =>
        simp only [Except.ok.injEq] at hok
        subst hok
        refine ⟨rfl, rfl, ?_, ?_⟩
        · exact operationName_eq attr fn.sig.ident
        · by_cases hsrr : is_service_response_return fn.sig.output
          · simp [hsrr, operationName_eq attr fn.sig.ident]
          · simp [hsrr, operationName_eq attr fn.sig.ident]

/-! ## Claim C1: the WrappedResponse classification rule -/

/-- Claim C1, counterexample: on the return type Result::Wrapper with a
ServiceResponse argument, the source classifier answers WrappedResponse
(is_service_response_return is true) although the outer named type,
matched by the last path segment only as the spec prescribes, is not
Result: last-segment-only matching, as the claim states it, disagrees
with the code. -/
theorem c1_counterexample :
    is_service_response_return c1CexReturn = true ∧
    is_service_response_return_specRule c1CexReturn = false :=
  ⟨rfl, rfl⟩

/-- Claim C1, amended: the classifier yields WrappedResponse exactly when
SOME path segment of the return type is named Result and the first
angle-bracketed generic argument of the LAST segment is a path type SOME
segment of which is named ServiceResponse; the matching compares each
segment identifier text, not only the last. -/
theorem c1_classifier_amended (output : ReturnType) :
    is_service_response_return output = is_service_response_return_amendedRule output := by
  cases output with
  | default => rfl
  | type ty =>
    cases ty with
    | reference inner => rfl
    | other => rfl
    | path p =>
      unfold is_service_response_return is_service_response_return_amendedRule is_type_named
      cases h : p.segments.any (fun segment => segment.ident == "Result") <;> simp [h]

/-! ## Claims C2 and C3: the two handler-body templates -/

/-- Claim C2: for every annotated function the macro accepts whose return
type is classified WrappedResponse, the emitted handler body is the
pass-through template that calls the original method with the arguments
(context, params) and carries the context message Error executing
followed by the operation name; its runtime meaning propagates the
Result of the method unchanged on success (no further wrapping) and
attaches the context message on the failure branch. -/
theorem c2_wrapped_passthrough (attr : AttrTokens) (fn : ItemFn) (out : ActionOutput)
    (hok : action attr fn = Except.ok out)
    (hcl : classify fn.sig.output = ReturnShape.WrappedResponse) :
    out.registration.handlerBody =
      HandlerCode.passThrough
        { method := fn.sig.ident, args := ["context", "params"] }
        ("Error executing " ++ out.registration.name) ∧
    (∀ r : ServiceResponse,
      runPassThrough ("Error executing " ++ out.registration.name) (Except.ok r) =
        Except.ok r) ∧
    (∀ e : AnyhowError,
      runPassThrough ("Error executing " ++ out.registration.name) (Except.error e) =
        Except.error (e.context ("Error executing " ++ out.registration.name))) := by
  have hsrr := (classify_eq_wrapped_iff fn.sig.output).mp hcl
  obtain ⟨-, -, hname, hbody⟩ := action_ok_cases attr fn out hok
  rw [hsrr] at hbody
  simp only [if_true] at hbody
  refine ⟨?_, fun r => rfl, fun e => rfl⟩
  rw [hbody, hname]

/-- Claim C2, witness: the classifier marks fnW2 WrappedResponse and the
conclusion of the theorem holds at the concrete synthesis output outW2. -/
theorem c2_wrapped_passthrough_witness :
    action emptyAttr fnW2 = Except.ok outW2 ∧
    classify fnW2.sig.output = ReturnShape.WrappedResponse ∧
    (outW2.registration.handlerBody =
      HandlerCode.passThrough
        { method := fnW2.sig.ident, args := ["context", "params"] }
        ("Error executing " ++ outW2.registration.name) ∧
    (∀ r : ServiceResponse,
      runPassThrough ("Error executing " ++ outW2.registration.name) (Except.ok r) =
        Except.ok r) ∧
    (∀ e : AnyhowError,
      runPassThrough ("Error executing " ++ outW2.registration.name) (Except.error e) =
        Except.error (e.context ("Error executing " ++ outW2.registration.name)))) :=
  ⟨rfl, rfl, c2_wrapped_passthrough emptyAttr fnW2 outW2 rfl rfl⟩

/-- Claim C3: for every annotated function the macro accepts whose return
type is classified RawResult or Raw, the emitted handler body is the
wrapping template carrying the context message Error executing followed
by the operation name and the fixed success message Operation succeeded;
its runtime meaning attaches the context message on the failure branch of
the method Result and wraps the success value, converted by the external
Into implementation, into a fresh success response. -/
theorem c3_raw_wrapping (attr : AttrTokens) (fn : ItemFn) (out : ActionOutput)
    (hok : action attr fn = Except.ok out)
    (hcl : classify fn.sig.output = ReturnShape.RawResult ∨
           classify fn.sig.output = ReturnShape.Raw) :
    out.registration.handlerBody =
      HandlerCode.wrapSuccess
        { method := fn.sig.ident, args := ["context", "params"] }
        ("Error executing " ++ out.registration.name)
        "Operation succeeded" ∧
    (∀ (α : Type) (intoValue : α → ValueType) (e : AnyhowError),
      runWrapSuccess ("Error executing " ++ out.registration.name) "Operation succeeded"
          intoValue (Except.error e) =
        Except.error (e.context ("Error executing " ++ out.registration.name))) ∧
    (∀ (α : Type) (intoValue : α → ValueType) (v : α),
      runWrapSuccess ("Error executing " ++ out.registration.name) "Operation succeeded"
          intoValue (Except.ok v) =
        Except.ok (ServiceResponse.success "Operation succeeded" (some (intoValue v)))) := by
  have hne : classify fn.sig.output ≠ ReturnShape.WrappedResponse := by
    rcases hcl with h | h <;> rw [h] <;> simp
  have hsrr := (classify_ne_wrapped_iff fn.sig.output).mp hne
  obtain ⟨-, -, hname, hbody⟩ := action_ok_cases attr fn out hok
  rw [hsrr] at hbody
  simp only [if_false, Bool.false_eq_true] at hbody
  refine ⟨?_, fun α intoValue e => rfl, fun α intoValue v => rfl⟩
  rw [hbody, hname]

/-- Claim C3, witness: fnW3 returns Result of PostsData, classified
RawResult, and the conclusion of the theorem holds at the concrete
synthesis output outW3. -/
theorem c3_raw_wrapping_witness :
    action emptyAttr fnW3 = Except.ok outW3 ∧
    classify fnW3.sig.output = ReturnShape.RawResult ∧
    (outW3.registration.handlerBody =
      HandlerCode.wrapSuccess
        { method := fnW3.sig.ident, args := ["context", "params"] }
        ("Error executing " ++ outW3.registration.name)
        "Operation succeeded" ∧
    (∀ (α : Type) (intoValue : α → ValueType) (e : AnyhowError),
      runWrapSuccess ("Error executing " ++ outW3.registration.name) "Operation succeeded"
          intoValue (Except.error e) =
        Except.error (e.context ("Error executing " ++ outW3.registration.name))) ∧
    (∀ (α : Type) (intoValue : α → ValueType) (v : α),
      runWrapSuccess ("Error executing " ++ outW3.registration.name) "Operation succeeded"
          intoValue (Except.ok v) =
        Except.ok (ServiceResponse.success "Operation succeeded" (some (intoValue v))))) :=
  ⟨rfl, rfl, c3_raw_wrapping emptyAttr fnW3 outW3 rfl (Or.inl rfl)⟩

/-! ## Claims C4 and C5: signature-validation failures -/

/-- Claim C4, counterexample: on a concrete annotated async free
function the synthesis fails anchored at the whole signature, but the
diagnostic text the source emits is Action handlers must be methods with
ampersand-self or ampersand-mut-self parameter, which is not the text
must be a method with a receiver that the claim states. -/
theorem c4_counterexample :
    action emptyAttr fnC4 =
      Except.error (SynError.new_spanned Anchor.wholeSig
        "Action handlers must be methods with &self or &mut self parameter") ∧
    SynError.new_spanned Anchor.wholeSig
        "Action handlers must be methods with &self or &mut self parameter" ≠
      SynError.new_spanned Anchor.wholeSig "must be a method with a receiver" :=
  ⟨rfl, by decide⟩

/-- Claim C4, amended: for every annotated function whose first parameter
is not a receiver (including free functions), synthesis fails with a
compile error and emits no descriptor; when the function is declared
async, so that the receiver rule is the one that fires (the async rule is
checked first), the diagnostic is Action handlers must be methods with
ampersand-self or ampersand-mut-self parameter, anchored at the whole
signature. -/
theorem c4_no_receiver_amended (attr : AttrTokens) (fn : ItemFn)
    (hrec : firstArgIsReceiver fn = false) :
    (∃ e : SynError, action attr fn = Except.error e) ∧
    (fn.sig.asyncness = true →
      action attr fn =
        Except.error (SynError.new_spanned Anchor.wholeSig
          "Action handlers must be methods with &self or &mut self parameter")) := by
  unfold firstArgIsReceiver at hrec
  have herr : fn.sig.asyncness = true →
      action attr fn =
        Except.error (SynError.new_spanned Anchor.wholeSig
          "Action handlers must be methods with &self or &mut self parameter") := by
    intro ha
    unfold action
    rw [ha]
    simp only [Bool.true_eq_false, if_false]
    cases hh : fn.sig.inputs.head? with
    | none => simp
    | some arg =>
      cases arg with
      | typed n t => simp
      | receiver r => rw [hh] at hrec; simp at hrec
  refine ⟨?_, herr⟩
  cases ha : fn.sig.asyncness with
  | false =>
    refine ⟨SynError.new_spanned Anchor.fnToken "action methods must be async", ?_⟩
    unfold action
    rw [ha]
    simp
  | true => exact ⟨_, herr ha⟩

/-- Claim C4, witness for the amended theorem: the concrete async free
function fnC4 has no receiver first parameter, synthesis fails, and the
async case yields the whole-signature diagnostic. -/
theorem c4_no_receiver_amended_witness :
    firstArgIsReceiver fnC4 = false ∧
    ((∃ e : SynError, action emptyAttr fnC4 = Except.error e) ∧
    (fnC4.sig.asyncness = true →
      action emptyAttr fnC4 =
        Except.error (SynError.new_spanned Anchor.wholeSig
          "Action handlers must be methods with &self or &mut self parameter"))) :=
  ⟨rfl, c4_no_receiver_amended emptyAttr fnC4 rfl⟩

/-- Claim C5, counterexample: on a concrete non-async annotated method
the synthesis fails anchored at the fn keyword, but the diagnostic text
the source emits is action methods must be async, which is not the text
must be asynchronous that the claim states. -/
theorem c5_counterexample :
    action emptyAttr fnC5 =
      Except.error (SynError.new_spanned Anchor.fnToken "action methods must be async") ∧
    SynError.new_spanned Anchor.fnToken "action methods must be async" ≠
      SynError.new_spanned Anchor.fnToken "must be asynchronous" :=
  ⟨rfl, by decide⟩

/-- Claim C5, amended: for every annotated function not declared async,
synthesis fails with the compile error whose diagnostic reads action
methods must be async, anchored at the fn keyword of the declaration, and
no descriptor is emitted (the result is the error, not an output). -/
theorem c5_not_async_amended (attr : AttrTokens) (fn : ItemFn)
    (ha : fn.sig.asyncness = false) :
    action attr fn =
      Except.error (SynError.new_spanned Anchor.fnToken "action methods must be async") := by
  unfold action
  rw [ha]
  simp

/-- Claim C5, witness for the amended theorem: the concrete non-async
method fnC5 fails with the fn-keyword diagnostic. -/
theorem c5_not_async_amended_witness :
    fnC5.sig.asyncness = false ∧
    action emptyAttr fnC5 =
      Except.error (SynError.new_spanned Anchor.fnToken "action methods must be async") :=
  ⟨rfl, c5_not_async_amended emptyAttr fnC5 rfl⟩

/-! ## Claim C6: operation-name resolution -/

/-- Claim C6: for every annotated function the macro accepts, if the
attribute carries no explicit name option the emitted operation name is
the function identifier, string for string; and if it carries the
explicit option name = X the emitted operation name is X, regardless of
the identifier. -/
theorem c6_operation_name (attr : AttrTokens) (fn : ItemFn) (out : ActionOutput)
    (hok : action attr fn = Except.ok out) :
    (explicitNameOption attr = none → out.registration.name = fn.sig.ident) ∧
    (∀ x : String, explicitNameOption attr = some x → out.registration.name = x) := by
  obtain ⟨-, -, hname, -⟩ := action_ok_cases attr fn out hok
  constructor
  · intro h; rw [hname, h]; rfl
  · intro x h; rw [hname, h]; rfl

/-- Claim C6, witness: with the explicit option name = get_user the
emitted name is get_user, and with the empty attribute the emitted name
is the function identifier. -/
theorem c6_operation_name_witness :
    action attrW6 fnW6 = Except.ok outW6 ∧
    explicitNameOption attrW6 = some "get_user" ∧
    outW6.registration.name = "get_user" ∧
    explicitNameOption emptyAttr = none ∧
    outW2.registration.name = fnW2.sig.ident :=
  ⟨rfl, rfl,
    (c6_operation_name attrW6 fnW6 outW6 rfl).2 "get_user" rfl,
    rfl,
    (c6_operation_name emptyAttr fnW2 outW2 rfl).1 rfl⟩

/-! ## Claim C7: malformed attribute tokens degrade to the default name -/

/-- Claim C7: for every attribute token stream that is non-empty but does
not parse as comma-separated meta items, the extracted option mapping is
empty, no explicit name option is seen, and the whole pipeline behaves
exactly as with an empty attribute: it falls back to the function
identifier as the operation name and introduces no failure of its own. -/
theorem c7_malformed_attr (attr : AttrTokens) (fn : ItemFn)
    (hne : attr.is_empty = false) (hmal : attr.parseResult = none) :
    extract_name_value_pairs (attr.parseResult.getD []) = [] ∧
    explicitNameOption attr = none ∧
    action attr fn = action emptyAttr fn := by
  have h1 : attr.parseResult.getD [] = ([] : List Meta) := by rw [hmal]; rfl
  refine ⟨by rw [h1]; rfl, ?_, ?_⟩
  · unfold explicitNameOption
    rw [hne, h1]
    simp [extract_name_value_pairs]
  · unfold action
    rw [hne, h1]
    rfl

/-- Claim C7, witness: the concrete malformed attribute attrW7 yields the
empty mapping and the same successful synthesis as the empty attribute,
with the operation name equal to the identifier of fnW7. -/
theorem c7_malformed_attr_witness :
    attrW7.is_empty = false ∧
    attrW7.parseResult = none ∧
    (extract_name_value_pairs (attrW7.parseResult.getD []) = [] ∧
     explicitNameOption attrW7 = none ∧
     action attrW7 fnW7 = action emptyAttr fnW7) ∧
    (action attrW7 fnW7).map (fun o => o.registration.name) = Except.ok "list_items" :=
  ⟨rfl, rfl, c7_malformed_attr attrW7 fnW7 rfl rfl, rfl⟩

/-! ## Claim C8: type mismatch at handler-invocation time -/

/-- Claim C8: for every invocation of the generated closure with a
type-erased service reference whose runtime tag does not match the
expected TypeId, the invocation returns the ordinary error value with the
message Service type mismatch in action handler, and the wrapped original
method is never called: the result does not depend on the handler body at
all. -/
theorem c8_type_mismatch {σ γ π : Type} (expectedTypeId : Nat)
    (body₁ body₂ : σ → γ → π → Except AnyhowError ServiceResponse)
    (service_ref : ServiceRef σ) (context : γ) (operation : String) (params : π)
    (hmm : service_ref.typeId ≠ expectedTypeId) :
    handlerClosure expectedTypeId body₁ service_ref context operation params =
      Except.error { message := "Service type mismatch in action handler", contextChain := [] } ∧
    handlerClosure expectedTypeId body₁ service_ref context operation params =
      handlerClosure expectedTypeId body₂ service_ref context operation params := by
  have hdc : downcast_ref service_ref expectedTypeId = none := by
    unfold downcast_ref
    simp [hmm]
  refine ⟨?_, ?_⟩ <;> unfold handlerClosure <;> rw [hdc]

/-- Claim C8, witness: invoking the closure expecting TypeId 1 with the
reference tagged 2 returns the type-mismatch error for both candidate
bodies, so the bodies are never consulted. -/
theorem c8_type_mismatch_witness :
    wrongRef.typeId ≠ 1 ∧
    (handlerClosure 1 bodyA wrongRef () "op" () =
      Except.error { message := "Service type mismatch in action handler", contextChain := [] } ∧
     handlerClosure 1 bodyA wrongRef () "op" () =
       handlerClosure 1 bodyB wrongRef () "op" ()) :=
  ⟨by decide, c8_type_mismatch 1 bodyA bodyB wrongRef () "op" () (by decide)⟩

/-! ## Claim C9: non-emptiness of the emitted operation name -/

/-- Claim C9, counterexample: with the explicit option name set to the
empty string on a valid annotated method, synthesis succeeds and the
emitted operation name is the empty string, so the emitted name is not
always non-empty. -/
theorem c9_counterexample :
    (action attrC9 fnC9).map (fun o => o.registration.name) = Except.ok "" :=
  rfl

/-- Claim C9, amended: for every annotated function the macro accepts,
the emitted operation name is the explicit option value, or the function
identifier when no explicit option is present; it is non-empty provided
the identifier is non-empty (a Rust identifier always is) and any
explicit option value is non-empty. With an explicit empty name option
the emitted name is empty. -/
theorem c9_nonempty_amended (attr : AttrTokens) (fn : ItemFn) (out : ActionOutput)
    (hok : action attr fn = Except.ok out)
    (hident : fn.sig.ident ≠ "")
    (hopt : ∀ x : String, explicitNameOption attr = some x → x ≠ "") :
    out.registration.name ≠ "" ∧
    (out.registration.name = fn.sig.ident ∨
     explicitNameOption attr = some out.registration.name) := by
  obtain ⟨-, -, hname, -⟩ := action_ok_cases attr fn out hok
  cases hopt2 : explicitNameOption attr with
  | none =>
    have hx : (explicitNameOption attr).getD fn.sig.ident = fn.sig.ident := by
      rw [hopt2]; rfl
    rw [hname, hx]
    exact ⟨hident, Or.inl rfl⟩
  | some x =>
    have hx : (explicitNameOption attr).getD fn.sig.ident = x := by
      rw [hopt2]; rfl
    rw [hname, hx]
    exact ⟨hopt x hopt2, Or.inr rfl⟩

/-- Claim C9, witness for the amended theorem: with the explicit
non-empty option name = post_list, the emitted operation name post_list
is non-empty and equals the explicit option value. -/
theorem c9_nonempty_amended_witness :
    action attrW9 fnW9 = Except.ok outW9 ∧
    fnW9.sig.ident ≠ "" ∧
    (outW9.registration.name ≠ "" ∧
     (outW9.registration.name = fnW9.sig.ident ∨
      explicitNameOption attrW9 = some outW9.registration.name)) :=
  ⟨rfl, by decide,
    c9_nonempty_amended attrW9 fnW9 outW9 rfl (by decide)
      (fun x hx => by
        have h0 : some "post_list" = some x :=
          (show explicitNameOption attrW9 = some "post_list" from rfl).symm.trans hx
        cases h0
        decide)⟩

/-! ## Claim C10: RawResult and Raw are observationally equivalent -/

/-- Claim C10: for every annotated function, replacing the declared
return type by any two types not classified WrappedResponse (one may be a
Result of something else, the other not a Result at all) produces the
same emitted registration record, handler body included: the Result
detection predicate is computed by the source but never consulted when
the handler template is selected. -/
theorem c10_raw_shapes_equivalent (attr : AttrTokens) (fn : ItemFn)
    (rt₁ rt₂ : ReturnType)
    (h₁ : classify rt₁ ≠ ReturnShape.WrappedResponse)
    (h₂ : classify rt₂ ≠ ReturnShape.WrappedResponse) :
    (action attr (setOutput fn rt₁)).map (fun o => o.registration) =
      (action attr (setOutput fn rt₂)).map (fun o => o.registration) := by
  have e₁ := (classify_ne_wrapped_iff rt₁).mp h₁
  have e₂ := (classify_ne_wrapped_iff rt₂).mp h₂
  unfold action setOutput
  dsimp only
  rw [e₁, e₂]
  cases ha : fn.sig.asyncness with
  | false => simp [ha]
  | true =>
    simp only [ha, Bool.true_eq_false, if_false]
    cases hh : fn.sig.inputs.head? with
    | none => rfl
    | some arg =>
      cases arg with
      | typed n t => rfl
      | receiver r => rfl

/-- Claim C10, witness: Result of PostsData is classified RawResult and
plain PostsData is classified Raw (the Result detection predicate
distinguishes them), yet the emitted registrations coincide. -/
theorem c10_raw_shapes_equivalent_witness :
    classify resultOfPostsReturn = ReturnShape.RawResult ∧
    classify plainPostsReturn = ReturnShape.Raw ∧
    is_result_return resultOfPostsReturn = true ∧
    is_result_return plainPostsReturn = false ∧
    (action emptyAttr (setOutput fnW10 resultOfPostsReturn)).map (fun o => o.registration) =
      (action emptyAttr (setOutput fnW10 plainPostsReturn)).map (fun o => o.registration) :=
  ⟨rfl, rfl, rfl, rfl,
    c10_raw_shapes_equivalent emptyAttr fnW10 resultOfPostsReturn plainPostsReturn
      (by decide) (by decide)⟩
